import Mathlib

/-!
Shallow embedding of the coordinate-normalization and spatial-filtering
procedures of the belle-epoque data-preparation scripts (Python), together
with theorems checking the repository's specification against the code.

Conventions of the embedding:
* Python floats are modelled as exact rationals (`ℚ`); the decimal literals
  appearing in the scripts are exact in `ℚ`.
* Python's `round(x, 1)` (round half to even, one decimal place) is
  modelled by `round1` below, built on an explicit half-to-even integer
  rounding `iround_half_even`.
* A point `[x, z]` is a pair `ℚ × ℚ`.
* JSON/shapefile/HTTP I/O is outside the embedded core (the spec, section 1,
  excludes it); the embedded functions receive the already-decoded records.
-/

set_option autoImplicit false

namespace BelleEpoque

/-- A local point `[x, z]` in meters. -/
abbrev Point := ℚ × ℚ

/-- Integer rounding, half to even, as Python's builtin `round` behaves on
exact values. -/
def iround_half_even (q : ℚ) : ℤ :=
  let f := ⌊q⌋
  let r := q - f
  if r < 1/2 then f
  else if 1/2 < r then f + 1
  else if f % 2 = 0 then f else f + 1

/-- Python's `round(q, 1)`: one-decimal rounding, half to even. -/
def round1 (q : ℚ) : ℚ :=
  (iround_half_even (10 * q) : ℚ) / 10

/-- `min` over a nonempty list, as Python's builtin `min`; the `[]` case is
never reached by the scripts (they guard against empty point lists). -/
def qmin : List ℚ → ℚ
  | [] => 0
  | x :: xs => xs.foldl min x

/-- `max` over a nonempty list, as Python's builtin `max`. -/
def qmax : List ℚ → ℚ
  | [] => 0
  | x :: xs => xs.foldl max x

/-- The reference frame of the spec, section 3: a center (latitude,
longitude) and the two scale factors. In the scripts these are module-level
constants (`CENTER_LAT`, `CENTER_LON`, `LAT_TO_METERS`, `LON_TO_METERS`). -/
structure Frame where
  center_lat : ℚ
  center_lon : ℚ
  lat_to_meters : ℚ
  lon_to_meters : ℚ
  deriving DecidableEq

/-- The projection formula stated by the spec, section 4.1 (`project`):
`x = (longitude - frame.center_longitude) * frame.lon_to_meters`,
`z = -(latitude - frame.center_latitude) * frame.lat_to_meters`.
Kept as a separate, spec-side definition so that each script's conversion
function can be compared against it. -/
def project (f : Frame) (lon lat : ℚ) : Point :=
  ((lon - f.center_lon) * f.lon_to_meters, -(lat - f.center_lat) * f.lat_to_meters)

/-- An axis-aligned bounding region in local meters (spec, section 3). -/
structure Region where
  min_x : ℚ
  max_x : ℚ
  min_z : ℚ
  max_z : ℚ
  deriving DecidableEq

/-- The inclusive bounds check the scripts repeat:
`min_x <= pt[0] <= max_x and min_z <= pt[1] <= max_z`
(`finalize_streets.py` line 33, `fix_alignment.py` line 47,
`align_streets.py` line 33). -/
def in_region (r : Region) (p : Point) : Bool :=
  decide (r.min_x ≤ p.1) && decide (p.1 ≤ r.max_x) &&
  decide (r.min_z ≤ p.2) && decide (p.2 ≤ r.max_z)

/-- A street record as the scripts shape it (only the fields the embedded
operations consult). -/
structure Street where
  name : String
  points : List Point
  deriving DecidableEq

namespace ExtractDowntown

/-- `extract_downtown.py` module constants. -/
def CENTER_LAT : ℚ := 38.5200

def CENTER_LON : ℚ := -89.9839

def LAT_TO_METERS : ℚ := 111000

def LON_TO_METERS : ℚ := 87000

/-- `extract_downtown.py`, `convert_to_local` (lines 35-39):
`x = (lon - CENTER_LON) * LON_TO_METERS`;
`z = -(lat - CENTER_LAT) * LAT_TO_METERS` (no rounding inside the function;
the caller rounds when appending). -/
def convert_to_local (lon lat : ℚ) : Point :=
  ((lon - CENTER_LON) * LON_TO_METERS, -(lat - CENTER_LAT) * LAT_TO_METERS)

/-- The reference frame `extract_downtown.py` encodes in its module
constants. -/
def frame : Frame :=
  { center_lat := CENTER_LAT, center_lon := CENTER_LON,
    lat_to_meters := LAT_TO_METERS, lon_to_meters := LON_TO_METERS }

end ExtractDowntown

namespace ExtractStreets

/-- `extract_streets.py` module constants. -/
def CENTER_LAT : ℚ := 38.5200

def CENTER_LON : ℚ := -89.9839

def LAT_TO_METERS : ℚ := 111000

def LON_TO_METERS : ℚ := 87000

/-- `extract_streets.py`, `convert_to_local` (lines 23-27): same formula,
rounded to 0.1 before returning. -/
def convert_to_local (lon lat : ℚ) : Point :=
  (round1 ((lon - CENTER_LON) * LON_TO_METERS),
   round1 (-(lat - CENTER_LAT) * LAT_TO_METERS))

/-- The reference frame `extract_streets.py` encodes in its module
constants. -/
def frame : Frame :=
  { center_lat := CENTER_LAT, center_lon := CENTER_LON,
    lat_to_meters := LAT_TO_METERS, lon_to_meters := LON_TO_METERS }

end ExtractStreets

namespace FetchLanduse

/-- `fetch_landuse.py` module constants. -/
def CENTER_LAT : ℚ := 38.521326

def CENTER_LON : ℚ := -89.984205

def LAT_TO_METERS : ℚ := 111000

def LON_TO_METERS : ℚ := 87000

/-- `fetch_landuse.py`, `to_local` (lines 19-22). -/
def to_local (lon lat : ℚ) : Point :=
  (round1 ((lon - CENTER_LON) * LON_TO_METERS),
   round1 (-(lat - CENTER_LAT) * LAT_TO_METERS))

/-- The reference frame `fetch_landuse.py` encodes in its module
constants. -/
def frame : Frame :=
  { center_lat := CENTER_LAT, center_lon := CENTER_LON,
    lat_to_meters := LAT_TO_METERS, lon_to_meters := LON_TO_METERS }

end FetchLanduse

namespace RebuildAll

/-- `rebuild_all.py`, `to_local` (lines 69-72). In the script `CENTER_LON`
and `CENTER_LAT` are globals computed at runtime from the OSM query for
Illinois Street; the embedding passes them as parameters. -/
def to_local (center_lon center_lat lon lat : ℚ) : Point :=
  (round1 ((lon - center_lon) * 87000),
   round1 (-(lat - center_lat) * 111000))

end RebuildAll

namespace FetchOverture

/-- `scripts/fetch-overture-data.py` module constants. -/
def CENTER_LAT : ℚ := 38.5170

def CENTER_LON : ℚ := -89.9842

/-- `scripts/fetch-overture-data.py`, `latlon_to_local` (lines 57-62):
`x = (lon - center_lon) * 111000 * math.cos(math.radians(center_lat))`;
`z = (lat - center_lat) * 111000` (note: no sign flip on `z`), both rounded
to 0.1. The transcendental factor `math.cos(math.radians(center_lat))` is
passed in as the rational parameter `coslat`, since the embedding works in
exact rationals; no theorem below depends on its value. -/
def latlon_to_local (coslat lon lat center_lon center_lat : ℚ) : Point :=
  (round1 ((lon - center_lon) * 111000 * coslat),
   round1 ((lat - center_lat) * 111000))

end FetchOverture

namespace FinalizeStreets

/-- `finalize_streets.py` (lines 28-38): per street, keep the sublist of
points inside the bounds, and keep the street (with its points replaced by
that sublist) only when at least 2 points survive. -/
def clip_streets (r : Region) (streets : List Street) : List Street :=
  streets.filterMap (fun s =>
    let pts_in_bounds := s.points.filter (in_region r)
    if 2 ≤ pts_in_bounds.length then some { s with points := pts_in_bounds }
    else none)

end FinalizeStreets

namespace FixAlignment

/-- `fix_alignment.py` (lines 43-52) and `align_streets.py` (lines 31-35):
keep a street, with all its points unmodified, when **any** of its points is
inside the bounds. -/
def keep_any (r : Region) (streets : List Street) : List Street :=
  streets.filter (fun s => s.points.any (in_region r))

end FixAlignment

/-- Helper for `every_step`: the first counter argument is the gap `k`, the
second counts down how many elements remain to be skipped before the next
kept element. -/
def every_step_aux (k : ℕ) : ℕ → List Point → List Point
  | _, [] => []
  | 0, p :: rest => p :: every_step_aux k k rest
  | n + 1, _ :: rest => every_step_aux k n rest

/-- `[points[i] for i in range(0, len(points), step)]` for `step = k + 1`:
keep the head, skip the next `k` elements, repeat. -/
def every_step (k : ℕ) (pts : List Point) : List Point :=
  every_step_aux k 0 pts

/-- `extract_downtown.py`, `simplify_polygon` (lines 41-54): inputs of
length at most 4 are returned unchanged; otherwise keep every `step`-th
point with `step = max(1, len(points) // 20)`, then append the first kept
point if the last kept point differs from it. -/
def simplify_polygon (pts : List Point) : List Point :=
  if pts.length ≤ 4 then pts
  else
    let step := max 1 (pts.length / 20)
    let simplified := every_step (step - 1) pts
    if simplified.head? = simplified.getLast? then simplified
    else simplified ++ simplified.head?.toList

/-- The height heuristic shared by `extract_downtown.py` (lines 113-122)
and `rebuild_all.py` (lines 185-193), as a function of the footprint area. -/
def estimate_height (area : ℚ) : ℚ :=
  if area < 50 then 5 + area / 10
  else if area < 200 then 8 + area / 30
  else if area < 500 then 12 + area / 50
  else 18 + min (area / 80) 25

/-- A building record as the extraction scripts emit it: the simplified
footprint, `position = [center_x, 0, center_z]` (the constant 0 elided) and
`size = [width, height, depth]`. -/
structure Building where
  footprint : List Point
  position : ℚ × ℚ
  size : ℚ × ℚ × ℚ
  deriving DecidableEq

namespace ExtractDowntown

/-- `extract_downtown.py`, `main` (lines 76-130), per-shape processing after
the points have been converted to local coordinates and rounded: skip empty
point lists (`if not points: continue`), simplify, compute bounds, skip
shapes whose bounding box has `width < 3 or depth < 3`, estimate the height
from the area and emit the building record. The geographic first-point
bounds check and the shapefile/projection I/O are external inputs (spec,
section 1) and are not part of the embedded core. -/
def process_shape (points : List Point) : Option Building :=
  if points.isEmpty then none
  else
    let local_points := simplify_polygon points
    let xs := local_points.map Prod.fst
    let zs := local_points.map Prod.snd
    let min_x := qmin xs
    let max_x := qmax xs
    let min_z := qmin zs
    let max_z := qmax zs
    let width := max_x - min_x
    let depth := max_z - min_z
    let center_x := (min_x + max_x) / 2
    let center_z := (min_z + max_z) / 2
    if width < 3 ∨ depth < 3 then none
    else
      let area := width * depth
      some { footprint := local_points
             position := (round1 center_x, round1 center_z)
             size := (round1 width, round1 (estimate_height area), round1 depth) }

/-- The building list emitted for a list of shapes. -/
def extract_buildings (shapes : List (List Point)) : List Building :=
  shapes.filterMap process_shape

end ExtractDowntown

namespace RebuildAll

/-- `rebuild_all.py` (lines 160-203), per-shape building processing: skip
empty point lists, decimate with `step = max(1, len // 20)` (without the
re-closing step of `simplify_polygon`), skip shapes with
`width < 3 or depth < 3`, estimate the height and emit the record. -/
def process_shape (points : List Point) : Option Building :=
  if points.isEmpty then none
  else
    let step := max 1 (points.length / 20)
    let local_points := every_step (step - 1) points
    let xs := local_points.map Prod.fst
    let zs := local_points.map Prod.snd
    let width := qmax xs - qmin xs
    let depth := qmax zs - qmin zs
    if width < 3 ∨ depth < 3 then none
    else
      let area := width * depth
      some { footprint := local_points
             position := (round1 ((qmin xs + qmax xs) / 2), round1 ((qmin zs + qmax zs) / 2))
             size := (round1 width, round1 (estimate_height area), round1 depth) }

/-- The building list emitted by `rebuild_all.py` for a list of shapes. -/
def extract_buildings (shapes : List (List Point)) : List Building :=
  shapes.filterMap process_shape

end RebuildAll

namespace FetchOverture

/-- `scripts/fetch-overture-data.py`, `fetch_buildings` (lines 136-222),
per-ring processing: drop the closing point (`ring[:-1]`), skip footprints
with fewer than 3 points, compute the centroid, pick the height from the
`height` attribute, else `num_floors * 3.5`, else `8 + hash(id_) % 25`
(the opaque Python hash value is passed in as `hash_mod`), compute the
bounding-box `width`/`depth` and emit the record. There is **no** minimum
width/depth check in this script. -/
def fetch_building (ring : List Point) (height num_floors : Option ℚ)
    (hash_mod : ℚ) : Option Building :=
  let footprint := ring.dropLast
  if footprint.length < 3 then none
  else
    let cx := (footprint.map Prod.fst).sum / footprint.length
    let cz := (footprint.map Prod.snd).sum / footprint.length
    let bldg_height :=
      match height with
      | some h => h
      | none =>
        match num_floors with
        | some n => n * 3.5
        | none => 8 + hash_mod
    let xs := footprint.map Prod.fst
    let zs := footprint.map Prod.snd
    let width := qmax xs - qmin xs
    let depth := qmax zs - qmin zs
    some { footprint := footprint
           position := (cx, cz)
           size := (width, bldg_height, depth) }

end FetchOverture

/-- The kind of a feature: line feature or area feature (spec, section 3). -/
inductive FeatKind where
  | polyline
  | polygon
  deriving DecidableEq

/-- A feature for the generalized clip filter. -/
structure GFeature where
  kind : FeatKind
  points : List Point
  deriving DecidableEq

/-- The per-kind minimum point count of the spec, section 4.1: polylines
need at least 2 points, polygons at least 3. -/
def min_points : FeatKind → ℕ
  | .polyline => 2
  | .polygon => 3

/-- Modelled from the spec: `filterFeatures` in `clip-to-region` mode
(spec, section 4.1). The repository's code clips only polylines
(`finalize_streets.py`, embedded above as `FinalizeStreets.clip_streets`);
the polygon branch (minimum of 3 surviving points) exists only in the
design spec and is modelled from its words: retain the subset of points
satisfying `withinRegion`, drop the feature when fewer than the kind's
minimum survive. -/
def filter_features_clip (r : Region) (feats : List GFeature) : List GFeature :=
  feats.filterMap (fun f =>
    let pts := f.points.filter (in_region r)
    if min_points f.kind ≤ pts.length then some { f with points := pts }
    else none)

/-- `a == b && starts_with as bs` prefix test on character lists (helper for
the case-insensitive substring match of `deriveReferenceFrame`). -/
def starts_with : List Char → List Char → Bool
  | [], _ => true
  | _ :: _, [] => false
  | a :: as, b :: bs => a == b && starts_with as bs

/-- Substring containment on character lists, as Python's `needle in hay`. -/
def sub_search (needle : List Char) : List Char → Bool
  | [] => needle.isEmpty
  | c :: rest => starts_with needle (c :: rest) || sub_search needle rest

/-- The case-insensitive substring match of the scripts
(`'illinois' in s['name'].lower()`) and of the spec's
`deriveReferenceFrame`: lower-case both strings character by character
(the names in this data are ASCII, where Python's `str.lower` is exactly
per-character lowering) and test substring containment. -/
def name_matches (anchor name : String) : Bool :=
  sub_search (anchor.toList.map Char.toLower) (name.toList.map Char.toLower)

/-- The frame-level error of the spec, section 7. -/
inductive AnchorError where
  | anchorNotFound
  deriving DecidableEq

/-- Modelled from the spec: `deriveReferenceFrame(anchorFeatureName,
features)` (spec, section 4.1) is absent from the source scripts (they only
have ad hoc analogues in `rebuild_all.py` lines 48-63 and
`recenter_data.py` lines 76-81); it is modelled from the spec's words:
find the features whose name contains the anchor name (case-insensitive
substring match); if none matches, report `AnchorNotFound` and perform no
further computation; otherwise center the new frame on the midpoint of the
coordinate range of the first match's points, keeping the fixed scale
factors the scripts use. -/
def deriveReferenceFrame (anchor : String) (feats : List Street) :
    Except AnchorError Frame :=
  match feats.filter (fun f => name_matches anchor f.name) with
  | [] => .error .anchorNotFound
  | f :: _ =>
    let xs := f.points.map Prod.fst
    let zs := f.points.map Prod.snd
    .ok { center_lat := (qmin zs + qmax zs) / 2
          center_lon := (qmin xs + qmax xs) / 2
          lat_to_meters := 111000
          lon_to_meters := 87000 }

namespace RecenterData

/-- `recenter_data.py` module constants (lines 9-19). -/
def FOUNTAIN_LAT : ℚ := 38.522207

def FOUNTAIN_LON : ℚ := -89.984903

def OLD_CENTER_LAT : ℚ := 38.5200

def OLD_CENTER_LON : ℚ := -89.9839

/-- `recenter_data.py` line 22: `(FOUNTAIN_LON - OLD_CENTER_LON) * LON_TO_METERS`. -/
def offset_x : ℚ := (FOUNTAIN_LON - OLD_CENTER_LON) * 87000

/-- `recenter_data.py` line 23: `-(FOUNTAIN_LAT - OLD_CENTER_LAT) * LAT_TO_METERS`. -/
def offset_z : ℚ := -(FOUNTAIN_LAT - OLD_CENTER_LAT) * 111000

/-- The per-point update `recenter_data.py` applies (lines 36-47 and 64-67):
subtract the offset, round to 0.1. -/
def apply_point (p : Point) : Point :=
  (round1 (p.1 - offset_x), round1 (p.2 - offset_z))

end RecenterData

namespace RecenterCorrect

/-- `recenter_correct.py` line 28: `(OLD_CENTER_LON - FOUNTAIN_LON) * LON_TO_METERS`. -/
def shift_x : ℚ := (RecenterData.OLD_CENTER_LON - RecenterData.FOUNTAIN_LON) * 87000

/-- `recenter_correct.py` line 29: `-(OLD_CENTER_LAT - FOUNTAIN_LAT) * LAT_TO_METERS`. -/
def shift_z : ℚ := -(RecenterData.OLD_CENTER_LAT - RecenterData.FOUNTAIN_LAT) * 111000

/-- `recenter_correct.py` line 45: `undo_x = -87.3`. -/
def undo_x : ℚ := -87.3

/-- `recenter_correct.py` line 46: `undo_z = -245.0`. -/
def undo_z : ℚ := -245.0

/-- `recenter_correct.py` line 48. -/
def total_shift_x : ℚ := undo_x + shift_x

/-- `recenter_correct.py` line 49. -/
def total_shift_z : ℚ := undo_z + shift_z

/-- The per-point update `recenter_correct.py` applies (lines 56-61 and
74-77): add the composite shift, round to 0.1. -/
def apply_point (p : Point) : Point :=
  (round1 (p.1 + total_shift_x), round1 (p.2 + total_shift_z))

end RecenterCorrect

/-! ## Helper lemmas -/

theorem iround_half_even_int_add (k : ℤ) {q : ℚ} (h1 : -(1/2) < q) (h2 : q < 1/2) :
    iround_half_even ((k : ℚ) + q) = k := by
  rcases le_or_lt 0 q with hq | hq
  · have hf : ⌊(k:ℚ) + q⌋ = k := by
      rw [Int.floor_int_add]
      have h0 : ⌊q⌋ = 0 := Int.floor_eq_zero_iff.mpr ⟨hq, by linarith⟩
      omega
    simp only [iround_half_even, hf]
    rw [show (k:ℚ) + q - (k:ℤ) = q by ring, if_pos h2]
  · have hf : ⌊(k:ℚ) + q⌋ = k - 1 := by
      rw [Int.floor_int_add]
      have hm1 : ⌊q⌋ = -1 :=
        Int.floor_eq_iff.mpr ⟨by norm_num; linarith, by norm_num; linarith⟩
      omega
    simp only [iround_half_even, hf]
    rw [show (k:ℚ) + q - ((k - 1 : ℤ):ℚ) = q + 1 by push_cast; ring]
    rw [if_neg (by linarith), if_pos (by linarith)]
    omega

theorem round1_grid (k : ℤ) {c : ℚ} (h1 : -(1/2) < 10 * c) (h2 : 10 * c < 1/2) :
    round1 ((k:ℚ)/10 + c) = (k:ℚ)/10 := by
  unfold round1
  rw [show 10 * ((k:ℚ)/10 + c) = (k:ℚ) + 10 * c by ring,
    iround_half_even_int_add k h1 h2]

theorem round1_intCast (k : ℤ) : round1 (k:ℚ) = (k:ℚ) := by
  have h := round1_grid (10 * k) (c := 0) (by norm_num) (by norm_num)
  rw [show ((10 * k : ℤ):ℚ)/10 + 0 = (k:ℚ) by push_cast; ring] at h
  rw [h]
  push_cast
  ring

theorem le_iround_half_even {n : ℤ} {q : ℚ} (h : (n:ℚ) ≤ q) : n ≤ iround_half_even q := by
  have hf : n ≤ ⌊q⌋ := Int.le_floor.mpr h
  simp only [iround_half_even]
  split_ifs <;> omega

theorem three_le_round1 {q : ℚ} (h : 3 ≤ q) : 3 ≤ round1 q := by
  have h30 : (30:ℤ) ≤ iround_half_even (10 * q) := le_iround_half_even (by push_cast; linarith)
  have h30q : (30:ℚ) ≤ (iround_half_even (10 * q) : ℚ) := by exact_mod_cast h30
  unfold round1
  linarith

theorem every_step_cons (k : ℕ) (p : Point) (l : List Point) :
    every_step k (p :: l) = p :: every_step_aux k k l := rfl

/-! ## Claims -/

/-- C5: for every reference frame, projecting the frame's own center point
yields local coordinates `(0, 0)`; with the frame the extraction scripts
use (center latitude 38.5200, longitude -89.9839, scale factors 111000 and
87000), projecting `(-89.9839, 38.5200)` gives `(0.0, 0.0)`, projecting
`(-89.9829, 38.5200)` gives `(87.0, 0.0)`, and projecting
`(-89.9839, 38.5210)` gives `(0.0, -111.0)` at the 0.1 m output
resolution. -/
theorem project_center_zero :
    (∀ f : Frame, project f f.center_lon f.center_lat = (0, 0)) ∧
    ExtractStreets.convert_to_local (-89.9839) 38.5200 = (0, 0) ∧
    ExtractStreets.convert_to_local (-89.9829) 38.5200 = (87, 0) ∧
    ExtractStreets.convert_to_local (-89.9839) 38.5210 = (0, -111) ∧
    ExtractDowntown.convert_to_local (-89.9839) 38.5200 = (0, 0) := by
  have h0 : round1 0 = 0 := by simpa using round1_intCast 0
  have h87 : round1 87 = 87 := by
    have h := round1_intCast 87
    push_cast at h
    simpa using h
  have h111 : round1 (-111) = -111 := by
    have h := round1_intCast (-111)
    push_cast at h
    simpa using h
  refine ⟨fun f => by simp [project], ?_, ?_, ?_, ?_⟩
  · norm_num [ExtractStreets.convert_to_local, ExtractStreets.CENTER_LON,
      ExtractStreets.CENTER_LAT, ExtractStreets.LON_TO_METERS,
      ExtractStreets.LAT_TO_METERS, h0]
  · norm_num [ExtractStreets.convert_to_local, ExtractStreets.CENTER_LON,
      ExtractStreets.CENTER_LAT, ExtractStreets.LON_TO_METERS,
      ExtractStreets.LAT_TO_METERS, h0, h87]
  · norm_num [ExtractStreets.convert_to_local, ExtractStreets.CENTER_LON,
      ExtractStreets.CENTER_LAT, ExtractStreets.LON_TO_METERS,
      ExtractStreets.LAT_TO_METERS, h0, h111]
  · norm_num [ExtractDowntown.convert_to_local, ExtractDowntown.CENTER_LON,
      ExtractDowntown.CENTER_LAT, ExtractDowntown.LON_TO_METERS,
      ExtractDowntown.LAT_TO_METERS]

/-- C8: `in_region` returns true exactly when
`min_x ≤ x ≤ max_x` and `min_z ≤ z ≤ max_z`, and the check is inclusive at
all four boundaries: a point with `x` exactly `min_x` or `max_x` (the `z`
coordinate in range), or `z` exactly `min_z` or `max_z` (the `x`
coordinate in range), is inside. -/
theorem within_region_inclusive :
    (∀ (r : Region) (p : Point),
        in_region r p = true ↔
          r.min_x ≤ p.1 ∧ p.1 ≤ r.max_x ∧ r.min_z ≤ p.2 ∧ p.2 ≤ r.max_z) ∧
    (∀ (r : Region) (z : ℚ), r.min_x ≤ r.max_x → r.min_z ≤ z → z ≤ r.max_z →
        in_region r (r.min_x, z) = true ∧ in_region r (r.max_x, z) = true) ∧
    (∀ (r : Region) (x : ℚ), r.min_z ≤ r.max_z → r.min_x ≤ x → x ≤ r.max_x →
        in_region r (x, r.min_z) = true ∧ in_region r (x, r.max_z) = true) := by
  refine ⟨fun r p => ?_, fun r z hx h1 h2 => ?_, fun r x hz h1 h2 => ?_⟩
  · simp [in_region, and_assoc]
  · refine ⟨?_, ?_⟩ <;>
      simp only [in_region, Bool.and_eq_true, decide_eq_true_eq]
    · exact ⟨⟨⟨le_rfl, hx⟩, h1⟩, h2⟩
    · exact ⟨⟨⟨hx, le_rfl⟩, h1⟩, h2⟩
  · refine ⟨?_, ?_⟩ <;>
      simp only [in_region, Bool.and_eq_true, decide_eq_true_eq]
    · exact ⟨⟨⟨h1, h2⟩, le_rfl⟩, hz⟩
    · exact ⟨⟨⟨h1, h2⟩, hz⟩, le_rfl⟩

/-- Witness for C8 at the region `(-100, 100, -100, 100)`: the four
boundary points are inside. -/
theorem within_region_inclusive_witness :
    (in_region ⟨-100, 100, -100, 100⟩ (-100, 0) = true ∧
     in_region ⟨-100, 100, -100, 100⟩ (100, 0) = true) ∧
    (in_region ⟨-100, 100, -100, 100⟩ (0, -100) = true ∧
     in_region ⟨-100, 100, -100, 100⟩ (0, 100) = true) :=
  ⟨within_region_inclusive.2.1 ⟨-100, 100, -100, 100⟩ 0
      (by norm_num) (by norm_num) (by norm_num),
   within_region_inclusive.2.2 ⟨-100, 100, -100, 100⟩ 0
      (by norm_num) (by norm_num) (by norm_num)⟩

/-- C6: the keep-if-any-point-in-region filter keeps a feature — with all
its points unmodified — exactly when at least one of its points is inside
the region, and the result is a stable filter: a sublist of the input, so
relative order is preserved. -/
theorem keep_any_stable_filter :
    (∀ (r : Region) (streets : List Street),
        (FixAlignment.keep_any r streets).Sublist streets) ∧
    (∀ (r : Region) (streets : List Street) (s : Street),
        s ∈ FixAlignment.keep_any r streets ↔
          s ∈ streets ∧ s.points.any (in_region r) = true) := by
  constructor
  · intro r streets
    exact List.filter_sublist streets
  · intro r streets s
    simp [FixAlignment.keep_any, List.mem_filter]

/-- C1 counterexample: `latlon_to_local` of
`scripts/fetch-overture-data.py` is a conversion function the scripts use
to produce local points, yet at a point one thousandth of a degree north of
its center it returns `z = 111`, while the claimed formula
`z = -(latitude - center_latitude) * lat_to_meters` gives `-111`: its `z`
axis is north-positive, not south-positive. (The `coslat` argument is
irrelevant to the `z` component; `78/100` stands for
`math.cos(math.radians(38.5170))`.) -/
theorem latlon_to_local_north_positive :
    (FetchOverture.latlon_to_local (78/100) FetchOverture.CENTER_LON 38.5180
        FetchOverture.CENTER_LON FetchOverture.CENTER_LAT).2 = 111 ∧
    -(((38.5180 : ℚ) - FetchOverture.CENTER_LAT) * 111000) = -111 ∧
    ((111 : ℚ)) ≠ -111 := by
  have h111 : round1 111 = 111 := by
    have h := round1_intCast 111
    push_cast at h
    simpa using h
  refine ⟨?_, by norm_num [FetchOverture.CENTER_LAT], by norm_num⟩
  norm_num [FetchOverture.latlon_to_local, FetchOverture.CENTER_LAT, h111]

/-- C1 amended: the conversion functions of `extract_downtown.py`,
`extract_streets.py`, `fetch_landuse.py` and `rebuild_all.py` all compute
`x = (longitude - center_longitude) * lon_to_meters` and
`z = -(latitude - center_latitude) * lat_to_meters` (rounded to 0.1 where
the script rounds), so for those functions `z` decreases as latitude
increases (z grows southward); `latlon_to_local` of
`scripts/fetch-overture-data.py` is the exception: its `z` component is
`+(latitude - center_latitude) * 111000`, north-positive. -/
theorem projection_formula_per_script :
    (∀ lon lat : ℚ, ExtractDowntown.convert_to_local lon lat =
        project ExtractDowntown.frame lon lat) ∧
    (∀ lon lat : ℚ, ExtractStreets.convert_to_local lon lat =
        (round1 (project ExtractStreets.frame lon lat).1,
         round1 (project ExtractStreets.frame lon lat).2)) ∧
    (∀ lon lat : ℚ, FetchLanduse.to_local lon lat =
        (round1 (project FetchLanduse.frame lon lat).1,
         round1 (project FetchLanduse.frame lon lat).2)) ∧
    (∀ clon clat lon lat : ℚ, RebuildAll.to_local clon clat lon lat =
        (round1 (project ⟨clat, clon, 111000, 87000⟩ lon lat).1,
         round1 (project ⟨clat, clon, 111000, 87000⟩ lon lat).2)) ∧
    (∀ (f : Frame) (lon lat1 lat2 : ℚ), 0 < f.lat_to_meters → lat1 < lat2 →
        (project f lon lat2).2 < (project f lon lat1).2) ∧
    (∀ coslat lon lat clon clat : ℚ,
        (FetchOverture.latlon_to_local coslat lon lat clon clat).2 =
          round1 ((lat - clat) * 111000)) := by
  refine ⟨fun lon lat => rfl, fun lon lat => rfl, fun lon lat => rfl,
    fun clon clat lon lat => rfl, ?_, fun coslat lon lat clon clat => rfl⟩
  intro f lon lat1 lat2 hM h12
  simp only [project]
  nlinarith [mul_pos (sub_pos.mpr h12) hM]

/-- Witness for the amended C1: with the `extract_downtown.py` frame,
moving north (latitude 0 to 1) strictly decreases `z`. -/
theorem projection_formula_per_script_witness :
    (project ExtractDowntown.frame 0 1).2 < (project ExtractDowntown.frame 0 0).2 :=
  projection_formula_per_script.2.2.2.2.1 ExtractDowntown.frame 0 0 1
    (by norm_num [ExtractDowntown.frame, ExtractDowntown.LAT_TO_METERS])
    (by norm_num)

/-- C2 counterexample: `estimate_height` is **not** monotonically
non-decreasing: `0 ≤ 48 ≤ 50` but
`estimate_height 50 = 29/3 < 49/5 = estimate_height 48` (the heuristic
drops across the `area = 50` breakpoint); moreover the exact value at area
100 is `34/3 = 11.33...`, not `11.3`. -/
theorem estimate_height_not_monotone :
    (0 : ℚ) ≤ 48 ∧ (48 : ℚ) ≤ 50 ∧
    estimate_height 50 < estimate_height 48 ∧
    estimate_height 100 ≠ 113/10 := by
  norm_num [estimate_height]

/-- C2 amended: `estimate_height` is monotonically non-decreasing on
`[0, 50)` and on `[50, ∞)` — every failure of monotonicity crosses the
`area = 50` breakpoint — and the spot values are
`estimate_height 40 = 9`, `estimate_height 100 = 34/3` (which prints as
`11.3` at the canonical 0.1 m resolution), `estimate_height 300 = 18`,
`estimate_height 600 = 25.5`. -/
theorem estimate_height_piecewise_monotone :
    (∀ a b : ℚ, 0 ≤ a → a ≤ b → b < 50 →
        estimate_height a ≤ estimate_height b) ∧
    (∀ a b : ℚ, 50 ≤ a → a ≤ b →
        estimate_height a ≤ estimate_height b) ∧
    estimate_height 40 = 9 ∧ estimate_height 100 = 34/3 ∧
    round1 (estimate_height 100) = 113/10 ∧
    estimate_height 300 = 18 ∧ estimate_height 600 = 51/2 := by
  refine ⟨?_, ?_, by norm_num [estimate_height], by norm_num [estimate_height],
    ?_, by norm_num [estimate_height], by norm_num [estimate_height]⟩
  · intro a b h0 hab hb
    have ha : a < 50 := lt_of_le_of_lt hab hb
    simp only [estimate_height, if_pos ha, if_pos hb]
    linarith
  · intro a b ha hab
    simp only [estimate_height]
    split_ifs <;>
      first
        | linarith
        | (have hmono : min (a/80) (25:ℚ) ≤ min (b/80) 25 :=
            min_le_min (by linarith) le_rfl
           linarith)
        | (have hlb : (25/4 : ℚ) ≤ min (b/80) 25 :=
            le_min (by linarith) (by norm_num)
           linarith)
  · have h : estimate_height 100 = 34/3 := by norm_num [estimate_height]
    rw [h]
    unfold round1
    rw [show (10:ℚ) * (34/3) = 340/3 by norm_num]
    have hfl : ⌊(340/3 : ℚ)⌋ = 113 := by norm_num
    simp only [iround_half_even, hfl]
    norm_num

/-- Witness for the amended C2: monotone within `[0, 50)` at `(10, 20)` and
within `[50, ∞)` at `(100, 600)`. -/
theorem estimate_height_piecewise_monotone_witness :
    estimate_height 10 ≤ estimate_height 20 ∧
    estimate_height 100 ≤ estimate_height 600 :=
  ⟨estimate_height_piecewise_monotone.1 10 20
      (by norm_num) (by norm_num) (by norm_num),
   estimate_height_piecewise_monotone.2.1 100 600
      (by norm_num) (by norm_num)⟩

/-- C3: `simplify_polygon` returns inputs of length at most 4 unchanged;
on longer inputs it is the decimation keeping every `step`-th point with
`step = max(1, len // 20)`, re-closed by appending the first kept point
when the last kept point differs from it, and the result always has equal
first and last point. -/
theorem simplify_polygon_closed :
    (∀ pts : List Point, pts.length ≤ 4 → simplify_polygon pts = pts) ∧
    (∀ pts : List Point, 4 < pts.length →
        simplify_polygon pts =
          (if (every_step (max 1 (pts.length / 20) - 1) pts).head? =
              (every_step (max 1 (pts.length / 20) - 1) pts).getLast? then
            every_step (max 1 (pts.length / 20) - 1) pts
          else
            every_step (max 1 (pts.length / 20) - 1) pts ++
              (every_step (max 1 (pts.length / 20) - 1) pts).head?.toList) ∧
        (simplify_polygon pts).head? = (simplify_polygon pts).getLast?) := by
  constructor
  · intro pts h
    simp [simplify_polygon, h]
  · intro pts h
    have hne : ¬ pts.length ≤ 4 := by omega
    refine ⟨by simp [simplify_polygon, hne], ?_⟩
    obtain ⟨p, rest, rfl⟩ : ∃ p rest, pts = p :: rest := by
      cases pts with
      | nil => simp at h
      | cons p rest => exact ⟨p, rest, rfl⟩
    simp only [simplify_polygon, if_neg hne]
    rw [every_step_cons]
    by_cases hh : (p :: every_step_aux (max 1 ((p :: rest).length / 20) - 1)
        (max 1 ((p :: rest).length / 20) - 1) rest).head? =
      (p :: every_step_aux (max 1 ((p :: rest).length / 20) - 1)
        (max 1 ((p :: rest).length / 20) - 1) rest).getLast?
    · rw [if_pos hh]
      exact hh
    · rw [if_neg hh]
      simp only [List.head?_cons, Option.toList_some, List.cons_append]
      rw [show (p :: (every_step_aux (max 1 ((p :: rest).length / 20) - 1)
          (max 1 ((p :: rest).length / 20) - 1) rest ++ [p])) =
        ((p :: every_step_aux (max 1 ((p :: rest).length / 20) - 1)
          (max 1 ((p :: rest).length / 20) - 1) rest) ++ [p]) from rfl]
      rw [List.getLast?_concat]

/-- Witness for C3: a 3-point polyline is returned unchanged; a 6-point
ring comes back with equal first and last point. -/
theorem simplify_polygon_closed_witness :
    simplify_polygon [((0:ℚ), (0:ℚ)), (1, 0), (2, 0)] = [(0, 0), (1, 0), (2, 0)] ∧
    (simplify_polygon [((0:ℚ), (0:ℚ)), (1, 0), (2, 0), (3, 0), (4, 1), (5, 2)]).head? =
      (simplify_polygon [((0:ℚ), (0:ℚ)), (1, 0), (2, 0), (3, 0), (4, 1), (5, 2)]).getLast? :=
  ⟨simplify_polygon_closed.1 _ (by decide),
   (simplify_polygon_closed.2 _ (by decide)).2⟩

/-- C4: clip-to-region filtering never returns a surviving polyline with
fewer than 2 points (`finalize_streets.py`), nor — in the generalized
spec-modelled filter — a surviving feature with fewer than its kind's
minimum (2 for polylines, 3 for polygons); and on the region
`(-100, 100, -100, 100)` the polyline `[(-150,0), (0,0), (150,0)]` clips
to the single point `[(0,0)]` and is dropped entirely. -/
theorem clip_region_min_points :
    (∀ (r : Region) (streets : List Street) (s : Street),
        s ∈ FinalizeStreets.clip_streets r streets → 2 ≤ s.points.length) ∧
    (∀ (r : Region) (feats : List GFeature) (f : GFeature),
        f ∈ filter_features_clip r feats → min_points f.kind ≤ f.points.length) ∧
    FinalizeStreets.clip_streets ⟨-100, 100, -100, 100⟩
        [⟨"", [(-150, 0), (0, 0), (150, 0)]⟩] = [] ∧
    ([(-150, 0), (0, 0), (150, 0)] : List Point).filter
        (in_region ⟨-100, 100, -100, 100⟩) = [(0, 0)] := by
  refine ⟨?_, ?_, by decide, by decide⟩
  · intro r streets s hs
    simp only [FinalizeStreets.clip_streets, List.mem_filterMap] at hs
    obtain ⟨a, -, ha⟩ := hs
    by_cases hc : 2 ≤ (a.points.filter (in_region r)).length
    · rw [if_pos hc] at ha
      obtain rfl : _ = s := Option.some.inj ha
      exact hc
    · rw [if_neg hc] at ha
      exact absurd ha (by simp)
  · intro r feats f hf
    simp only [filter_features_clip, List.mem_filterMap] at hf
    obtain ⟨a, -, ha⟩ := hf
    by_cases hc : min_points a.kind ≤ (a.points.filter (in_region r)).length
    · rw [if_pos hc] at ha
      obtain rfl : _ = f := Option.some.inj ha
      exact hc
    · rw [if_neg hc] at ha
      exact absurd ha (by simp)

/-- Witness for C4: a 2-point polyline fully inside the region survives
with 2 points; a 3-point polygon fully inside survives with 3 points. -/
theorem clip_region_min_points_witness :
    2 ≤ (⟨"", [((0:ℚ), (0:ℚ)), (1, 1)]⟩ : Street).points.length ∧
    min_points (⟨.polygon, [((0:ℚ), 0), (1, 1), (2, 0)]⟩ : GFeature).kind ≤
      (⟨.polygon, [((0:ℚ), 0), (1, 1), (2, 0)]⟩ : GFeature).points.length :=
  ⟨clip_region_min_points.1 ⟨-100, 100, -100, 100⟩
      [⟨"", [(0, 0), (1, 1)]⟩] _ (by decide),
   clip_region_min_points.2.1 ⟨-100, 100, -100, 100⟩
      [⟨.polygon, [(0, 0), (1, 1), (2, 0)]⟩] _ (by decide)⟩

/-- C7: when no feature's name contains the anchor name as a
case-insensitive substring, `deriveReferenceFrame` reports the explicit
`AnchorNotFound` error and performs no further computation (no frame is
produced). -/
theorem derive_frame_not_found :
    ∀ (anchor : String) (feats : List Street),
      (∀ f ∈ feats, name_matches anchor f.name = false) →
      deriveReferenceFrame anchor feats = .error .anchorNotFound := by
  intro anchor feats h
  have hfil : feats.filter (fun f => name_matches anchor f.name) = [] :=
    List.filter_eq_nil_iff.mpr (by intro a ha; simp [h a ha])
  unfold deriveReferenceFrame
  rw [hfil]

/-- Witness for C7: the spec's scenario — anchor "Illinois Street" against
features none of whose names contain "illinois" case-insensitively. -/
theorem derive_frame_not_found_witness :
    deriveReferenceFrame "Illinois Street"
      [⟨"Main Street", [(0, 0)]⟩, ⟨"High Street", [(1, 1), (2, 2)]⟩] =
      .error .anchorNotFound :=
  derive_frame_not_found "Illinois Street"
    [⟨"Main Street", [(0, 0)]⟩, ⟨"High Street", [(1, 1), (2, 2)]⟩] (by decide)

/-- C9: subtracting `recenter_data.py`'s offset is, in exact arithmetic,
the identical translation to adding `recenter_correct.py`'s "correct"
shift; consequently `recenter_correct.py`'s composite
"undo wrong offset plus apply correct offset" is
`(-39/1000, -23/1000) = (-0.039, -0.023)` — below 0.05 m in each axis —
and on 0.1 m-quantized coordinates its per-point update (which re-rounds
to 0.1) is the identity: a near no-op, not a re-centering. -/
theorem recenter_shift_equivalence :
    (∀ x : ℚ, x - RecenterData.offset_x = x + RecenterCorrect.shift_x) ∧
    (∀ z : ℚ, z - RecenterData.offset_z = z + RecenterCorrect.shift_z) ∧
    RecenterCorrect.total_shift_x = -39/1000 ∧
    RecenterCorrect.total_shift_z = -23/1000 ∧
    |RecenterCorrect.total_shift_x| < 5/100 ∧
    |RecenterCorrect.total_shift_z| < 5/100 ∧
    (∀ k m : ℤ, RecenterCorrect.apply_point ((k:ℚ)/10, (m:ℚ)/10) =
      ((k:ℚ)/10, (m:ℚ)/10)) := by
  have hx : RecenterCorrect.total_shift_x = -39/1000 := by
    norm_num [RecenterCorrect.total_shift_x, RecenterCorrect.undo_x,
      RecenterCorrect.shift_x, RecenterData.OLD_CENTER_LON,
      RecenterData.FOUNTAIN_LON]
  have hz : RecenterCorrect.total_shift_z = -23/1000 := by
    norm_num [RecenterCorrect.total_shift_z, RecenterCorrect.undo_z,
      RecenterCorrect.shift_z, RecenterData.OLD_CENTER_LAT,
      RecenterData.FOUNTAIN_LAT]
  refine ⟨?_, ?_, hx, hz, ?_, ?_, ?_⟩
  · intro x
    simp only [RecenterData.offset_x, RecenterCorrect.shift_x]
    ring
  · intro z
    simp only [RecenterData.offset_z, RecenterCorrect.shift_z]
    ring
  · rw [hx, abs_lt]
    norm_num
  · rw [hz, abs_lt]
    norm_num
  · intro k m
    simp only [RecenterCorrect.apply_point, hx, hz]
    rw [round1_grid k (by norm_num) (by norm_num),
      round1_grid m (by norm_num) (by norm_num)]

/-- C10 counterexample: `fetch_buildings` of
`scripts/fetch-overture-data.py` is a building-extraction script, yet it
applies no minimum footprint size: a 1 m × 1 m triangular ring is emitted
as a building record with `size[0] = 1 < 3`. -/
theorem overture_building_no_min_size :
    FetchOverture.fetch_building [(0, 0), (1, 0), (0, 1), (0, 0)] none none 0 =
      some ⟨[(0, 0), (1, 0), (0, 1)], (1/3, 1/3), (1, 8, 1)⟩ ∧
    ¬ (3 ≤ (1 : ℚ)) := by
  refine ⟨?_, by norm_num⟩
  norm_num [FetchOverture.fetch_building, qmin, qmax]

/-- C10 amended: every building record emitted by the shapefile-based
extraction scripts (`extract_downtown.py` and `rebuild_all.py`) has
`size[0] ≥ 3` and `size[2] ≥ 3`, because those scripts silently skip any
shape whose projected bounding box has `width < 3` or `depth < 3`;
`scripts/fetch-overture-data.py` applies no such minimum. -/
theorem shapefile_buildings_min_size :
    ∀ (shapes : List (List Point)) (b : Building),
      (b ∈ ExtractDowntown.extract_buildings shapes →
        3 ≤ b.size.1 ∧ 3 ≤ b.size.2.2) ∧
      (b ∈ RebuildAll.extract_buildings shapes →
        3 ≤ b.size.1 ∧ 3 ≤ b.size.2.2) := by
  intro shapes b
  constructor
  · intro hb
    simp only [ExtractDowntown.extract_buildings, List.mem_filterMap,
      ExtractDowntown.process_shape] at hb
    obtain ⟨pts, -, hpts⟩ := hb
    split at hpts
    · exact absurd hpts (by simp)
    · split at hpts
      · exact absurd hpts (by simp)
      · next hlt =>
          obtain rfl := Option.some.inj hpts
          push_neg at hlt
          exact ⟨three_le_round1 hlt.1, three_le_round1 hlt.2⟩
  · intro hb
    simp only [RebuildAll.extract_buildings, List.mem_filterMap,
      RebuildAll.process_shape] at hb
    obtain ⟨pts, -, hpts⟩ := hb
    split at hpts
    · exact absurd hpts (by simp)
    · split at hpts
      · exact absurd hpts (by simp)
      · next hlt =>
          obtain rfl := Option.some.inj hpts
          push_neg at hlt
          exact ⟨three_le_round1 hlt.1, three_le_round1 hlt.2⟩

/-- Witness for the amended C10: a 4 m × 4 m square footprint passes both
pipelines, and the emitted record's width and depth are at least 3. -/
theorem shapefile_buildings_min_size_witness :
    (3 ≤ ((⟨[(0, 0), (4, 0), (4, 4), (0, 4)], (2, 2), (4, 33/5, 4)⟩ :
        Building)).size.1 ∧
     3 ≤ ((⟨[(0, 0), (4, 0), (4, 4), (0, 4)], (2, 2), (4, 33/5, 4)⟩ :
        Building)).size.2.2) ∧
    (3 ≤ ((⟨[(0, 0), (4, 0), (4, 4), (0, 4)], (2, 2), (4, 33/5, 4)⟩ :
        Building)).size.1 ∧
     3 ≤ ((⟨[(0, 0), (4, 0), (4, 4), (0, 4)], (2, 2), (4, 33/5, 4)⟩ :
        Building)).size.2.2) := by
  have h2 : round1 (2 : ℚ) = 2 := by
    have h := round1_intCast 2
    push_cast at h
    simpa using h
  have h4 : round1 (4 : ℚ) = 4 := by
    have h := round1_intCast 4
    push_cast at h
    simpa using h
  have h335 : round1 (33/5 : ℚ) = 33/5 := by
    have h := round1_grid 66 (c := 0) (by norm_num) (by norm_num)
    norm_num at h
    exact h
  have hED : ExtractDowntown.extract_buildings [[(0, 0), (4, 0), (4, 4), (0, 4)]] =
      [⟨[(0, 0), (4, 0), (4, 4), (0, 4)], (2, 2), (4, 33/5, 4)⟩] := by
    simp only [ExtractDowntown.extract_buildings, List.filterMap_cons,
      List.filterMap_nil, ExtractDowntown.process_shape, simplify_polygon]
    norm_num [qmin, qmax, estimate_height, h2, h4, h335]
  have hRA : RebuildAll.extract_buildings [[(0, 0), (4, 0), (4, 4), (0, 4)]] =
      [⟨[(0, 0), (4, 0), (4, 4), (0, 4)], (2, 2), (4, 33/5, 4)⟩] := by
    simp only [RebuildAll.extract_buildings, List.filterMap_cons,
      List.filterMap_nil, RebuildAll.process_shape, every_step, every_step_aux]
    norm_num [qmin, qmax, estimate_height, h2, h4, h335]
  exact ⟨(shapefile_buildings_min_size [[(0, 0), (4, 0), (4, 4), (0, 4)]] _).1
      (by rw [hED]; exact List.mem_singleton.mpr rfl),
    (shapefile_buildings_min_size [[(0, 0), (4, 0), (4, 4), (0, 4)]] _).2
      (by rw [hRA]; exact List.mem_singleton.mpr rfl)⟩

end BelleEpoque
